import Mathlib

/-!
Verification of the Fitness Coach backend (main.py, schemas.py).

Numbers: Python floats are modelled as rationals (ℚ), Python ints as ℤ.
Python's builtin `round` (banker's rounding, ties to even) is modelled by
`pyRound`.  Python's truthiness-based `x or default` on floats is modelled
by `pyOr` / `pyOrOpt` (0.0 and None are falsy).

The document store (database.py) is not part of the handler sources; its
operations are modelled from the specification (§4.1) as explicit list
state: a collection is a list of stored documents, `create_document`
appends, `get_documents` filters by conjunctive field equality.
-/

namespace FitnessCoach

/-- Python 3 `round` on a rational: nearest integer, ties to even. -/
def pyRound (q : ℚ) : ℤ :=
  let f := ⌊q⌋
  let r := q - f
  if r < 1/2 then f
  else if 1/2 < r then f + 1
  else if f % 2 = 0 then f else f + 1

/-- Python `x or d` where `x` is a float: `0.0` is falsy. -/
def pyOr (x d : ℚ) : ℚ := if x = 0 then d else x

/-- Python `x or d` where `x` is an `Optional[float]`: `None` and `0.0` are falsy. -/
def pyOrOpt (x : Option ℚ) (d : ℚ) : ℚ :=
  match x with
  | none => d
  | some v => pyOr v d

/-- schemas.MealItem: name, required calories (ge=0), optional quantity (default 1, ge=0). -/
structure MealItem where
  name : String
  calories : ℚ
  quantity : Option ℚ
deriving DecidableEq, Repr

/-- schemas.MealLog: the persisted meal-log document shape. -/
structure MealLog where
  user_id : String
  date : String
  items : List MealItem
  total_calories : ℚ
  notes : Option String
deriving DecidableEq, Repr

/-- main.LogMealRequest. -/
structure LogMealRequest where
  user_id : String
  date : String
  items : List MealItem
  notes : Option String
deriving DecidableEq, Repr

/-- main.LogMealResponse. -/
structure LogMealResponse where
  log_id : String
  total_calories : ℚ
deriving DecidableEq, Repr

/-- A document stored in the `meallog` collection.  The store is
schemaless, so `total_calories` may be absent (`none`), matching the
defaulting read `d.get("total_calories", 0)` in `daily_summary`. -/
structure StoredMealLog where
  user_id : String
  date : String
  items : List MealItem
  total_calories : Option ℚ
  notes : Option String
deriving DecidableEq, Repr

/-- Serialization of a validated MealLog record to its stored document. -/
def MealLog.toStored (m : MealLog) : StoredMealLog :=
  ⟨m.user_id, m.date, m.items, some m.total_calories, m.notes⟩

/-- Modelled from the spec (§4.1, database.py is absent from the sources):
`create_document` inserts the serialized record into the collection and
returns a newly generated unique identifier in string form.  The
collection is the explicit list state; the fresh identifier is derived
from the collection size. -/
def create_document (store : List StoredMealLog) (doc : MealLog) :
    List StoredMealLog × String :=
  (store ++ [doc.toStored], toString store.length)

/-- Modelled from the spec (§4.1, database.py is absent from the sources):
`get_documents` returns the documents matching a conjunctive
field-equality filter, here {user_id, date}, in store order. -/
def get_documents (store : List StoredMealLog) (user_id date : String) :
    List StoredMealLog :=
  store.filter (fun d => d.user_id = user_id ∧ d.date = date)

/-- main.log_meal: compute the total, persist one MealLog, return id+total. -/
def log_meal (store : List StoredMealLog) (payload : LogMealRequest) :
    List StoredMealLog × LogMealResponse :=
  let total := payload.items.foldl
    (fun acc item => acc + pyOr item.calories 0 * pyOrOpt item.quantity 1) 0
  let doc : MealLog :=
    { user_id := payload.user_id
      date := payload.date
      items := payload.items
      total_calories := total
      notes := payload.notes }
  let res := create_document store doc
  (res.1, { log_id := res.2, total_calories := total })

/-- main.DaySummary. -/
structure DaySummary where
  date : String
  total_calories : ℚ
deriving DecidableEq, Repr

/-- main.daily_summary: sum the stored total_calories of all matching docs. -/
def daily_summary (store : List StoredMealLog) (user_id date : String) :
    DaySummary :=
  let docs := get_documents store user_id date
  let total := docs.foldl (fun t d => t + (d.total_calories.getD 0)) 0
  { date := date, total_calories := total }

/-- main.HTTPException payload: status code and detail string. -/
structure HTTPError where
  status : ℕ
  detail : String
deriving DecidableEq, Repr

/-- main.DietRequest (field constraints live in the claims' hypotheses). -/
structure DietRequest where
  age : ℤ
  sex : String
  height_cm : ℚ
  weight_kg : ℚ
  activity_level : String
  goal : String
deriving DecidableEq, Repr

/-- main.DietPlan. -/
structure DietPlan where
  target_calories : ℤ
  protein_g : ℤ
  carbs_g : ℤ
  fat_g : ℤ
  tips : List String
deriving DecidableEq, Repr

/-- Python `str.lower()` on a list of characters (ASCII case mapping). -/
def pyLower (l : List Char) : List Char := l.map Char.toLower

/-- Python `str.strip()` on a list of characters: remove leading and
trailing whitespace. -/
def pyStrip (l : List Char) : List Char :=
  (l.dropWhile Char.isWhitespace).rdropWhile Char.isWhitespace

/-- Python `str.lower()` at the String interface. -/
def pyLowerStr (s : String) : String := String.mk (pyLower s.toList)

/-- main._activity_factors dictionary. -/
def activity_factors (s : String) : Option ℚ :=
  if s = "sedentary" then some 1.2
  else if s = "light" then some 1.375
  else if s = "moderate" then some 1.55
  else if s = "active" then some 1.725
  else if s = "very_active" then some 1.9
  else none

/-- The three static tip strings of main.diet_plan. -/
def dietTips : List String :=
  [ "Aim for whole foods: lean protein, veggies, fruits, whole grains",
    "Drink enough water (2-3L/day)",
    "Prioritize protein in each meal" ]

/-- main.diet_plan: validate sex/activity, Mifflin-St Jeor BMR, TDEE,
goal adjustment, 1200 floor, 30/40/30 macro split. -/
def diet_plan (req : DietRequest) : Except HTTPError DietPlan :=
  let sex := pyLowerStr req.sex
  if sex ≠ "male" ∧ sex ≠ "female" then
    .error ⟨400, "sex must be 'male' or 'female'"⟩
  else
    match activity_factors req.activity_level with
    | none => .error ⟨400, "invalid activity_level"⟩
    | some factor =>
      let bmr : ℚ :=
        if sex = "male" then
          10 * req.weight_kg + 6.25 * req.height_cm - 5 * (req.age : ℚ) + 5
        else
          10 * req.weight_kg + 6.25 * req.height_cm - 5 * (req.age : ℚ) - 161
      let tdee := bmr * factor
      let target0 : ℚ :=
        if req.goal = "lose" then tdee - 500
        else if req.goal = "gain" then tdee + 300
        else tdee
      let target := max 1200 target0
      let protein_cal := 0.30 * target
      let carb_cal := 0.40 * target
      let fat_cal := 0.30 * target
      .ok
        { target_calories := pyRound target
          protein_g := pyRound (protein_cal / 4)
          carbs_g := pyRound (carb_cal / 4)
          fat_g := pyRound (fat_cal / 9)
          tips := dietTips }

/-- diet_plan as a full request handler with the ambient store state made
explicit: the handler body performs no store operation, so the state is
passed through unchanged. -/
def dietPlanHandler (store : List StoredMealLog) (req : DietRequest) :
    List StoredMealLog × Except HTTPError DietPlan :=
  (store, diet_plan req)

/-- main.FormGuideResponse. -/
structure FormGuideResponse where
  name : String
  cues : List String
  mistakes : List String
deriving DecidableEq, Repr

/-- One entry of main._form_library. -/
structure FormEntry where
  cues : List String
  mistakes : List String
deriving DecidableEq, Repr

/-- main._form_library: the hard-coded exercise-form catalog. -/
def form_library : List (List Char × FormEntry) :=
  [ ("squat".toList,
      ⟨[ "Feet shoulder-width, toes slightly out",
         "Brace core, neutral spine",
         "Knees track over toes",
         "Sit back and down until thighs are parallel" ],
       [ "Heels lifting",
         "Knees collapsing in",
         "Rounding the back" ]⟩),
    ("push-up".toList,
      ⟨[ "Hands under shoulders",
         "Body in a straight line",
         "Elbows ~45 degrees",
         "Chest to floor, full lockout" ],
       [ "Sagging hips",
         "Flaring elbows",
         "Half reps" ]⟩),
    ("deadlift".toList,
      ⟨[ "Bar over mid-foot",
         "Hinge at hips, flat back",
         "Lats tight, bar close",
         "Push the floor, stand tall" ],
       [ "Rounding lower back",
         "Jerking the bar",
         "Bar drifting forward" ]⟩) ]

/-- The not-found detail string of main.exercise_form. -/
def formNotFoundDetail : String := "Exercise not found. Try squat, push-up, or deadlift"

/-- main.exercise_form: normalize the name (strip, then lower), look it up
in the catalog, 404 on a miss. -/
def exercise_form (exercise : String) : Except HTTPError FormGuideResponse :=
  let name := pyLower (pyStrip exercise.toList)
  match (form_library.find? (fun p => p.1 = name)).map (fun p => p.2) with
  | none => .error ⟨404, formNotFoundDetail⟩
  | some entry => .ok ⟨String.mk name, entry.cues, entry.mistakes⟩

/-- The /test response record of main.test_database.  The `database`
field is kept as a character list because the error branch builds it by
string slicing. -/
structure TestResponse where
  backend : String
  database : List Char
  database_url : Option String
  database_name : Option String
  connection_status : String
  collections : List String
deriving DecidableEq, Repr

/-- The outcome of probing the store while handling /test.  Modelled from
the spec (§4.6, database.py is absent from the sources): the process-wide
store handle may be uninitialized (`none`), and listing the collection
names may either raise an error with a message or return the names. -/
inductive ProbeOutcome where
  | unavailable : ProbeOutcome
  | listingError : List Char → ProbeOutcome
  | collections : List String → ProbeOutcome
deriving DecidableEq, Repr

/-- main.test_database: report connectivity, truncating the error text to
50 characters and the collection list to 10 names; every probe outcome
produces a response (nothing propagates). -/
def test_database (urlSet nameSet : Bool) (probe : ProbeOutcome) : TestResponse :=
  let base : TestResponse :=
    { backend := "✅ Running"
      database := "❌ Not Available".toList
      database_url := none
      database_name := none
      connection_status := "Not Connected"
      collections := [] }
  match probe with
  | .unavailable =>
    { base with database := "⚠️  Available but not initialized".toList }
  | .listingError e =>
    { base with
        database := "⚠️  Connected but Error: ".toList ++ e.take 50
        database_url := some (if urlSet then "✅ Set" else "❌ Not Set")
        database_name := some (if nameSet then "✅ Set" else "❌ Not Set")
        connection_status := "Connected" }
  | .collections cols =>
    { base with
        database := "✅ Connected & Working".toList
        database_url := some (if urlSet then "✅ Set" else "❌ Not Set")
        database_name := some (if nameSet then "✅ Set" else "❌ Not Set")
        connection_status := "Connected"
        collections := cols.take 10 }

instance {ε α : Type} [DecidableEq ε] [DecidableEq α] : DecidableEq (Except ε α) := fun
  | .error e, .error e' =>
    if h : e = e' then isTrue (by rw [h]) else isFalse (by simp [h])
  | .error _, .ok _ => isFalse (by simp)
  | .ok _, .error _ => isFalse (by simp)
  | .ok a, .ok a' =>
    if h : a = a' then isTrue (by rw [h]) else isFalse (by simp [h])

/-- The total the claim describes, following the spec's words: sum over
items of calories times quantity, an absent quantity counts as 1 and
absent calories count as 0 (calories are always present after
validation). -/
def specMealTotal (items : List MealItem) : ℚ :=
  (items.map (fun i => i.calories * i.quantity.getD 1)).sum

/-- The amended total: sum over items of calories times quantity, where a
quantity that is absent or zero counts as 1. -/
def amendedMealTotal (items : List MealItem) : ℚ :=
  (items.map (fun i =>
    i.calories * (match i.quantity with
      | none => 1
      | some q => if q = 0 then 1 else q))).sum

/-- Spec formula (§4.4): the Mifflin-St Jeor BMR keyed on lowercased sex. -/
def specBMR (req : DietRequest) : ℚ :=
  if pyLowerStr req.sex = "male" then
    10 * req.weight_kg + 6.25 * req.height_cm - 5 * (req.age : ℚ) + 5
  else
    10 * req.weight_kg + 6.25 * req.height_cm - 5 * (req.age : ℚ) - 161

/-- Spec formula (§4.4): goal adjustment of the TDEE. -/
def specGoalAdjust (goal : String) (tdee : ℚ) : ℚ :=
  if goal = "lose" then tdee - 500
  else if goal = "gain" then tdee + 300
  else tdee

/-- Spec formula (§4.4): goal-adjusted TDEE clamped to the 1200 floor. -/
def specTarget (req : DietRequest) (factor : ℚ) : ℚ :=
  max 1200 (specGoalAdjust req.goal (specBMR req * factor))

/-- The five recognized activity levels. -/
def activityLevels : List String :=
  ["sedentary", "light", "moderate", "active", "very_active"]

/-- The claim's precondition on meal items: non-negative calories and
non-negative quantity (an absent quantity counts as 1). -/
def nonnegItems (items : List MealItem) : Prop :=
  ∀ i ∈ items, 0 ≤ i.calories ∧ 0 ≤ i.quantity.getD 1

instance (items : List MealItem) : Decidable (nonnegItems items) :=
  List.decidableBAll _ items

theorem char_eq_iff_toNat (c d : Char) : (c = d) ↔ c.toNat = d.toNat := by
  rw [Char.ext_iff]
  exact ⟨fun h => by unfold Char.toNat; rw [h], fun h => UInt32.toNat.inj h⟩

theorem isWhitespace_iff (c : Char) :
    c.isWhitespace = true ↔ (c.toNat = 32 ∨ c.toNat = 9 ∨ c.toNat = 13 ∨ c.toNat = 10) := by
  simp only [Char.isWhitespace, Bool.or_eq_true, decide_eq_true_eq]
  rw [char_eq_iff_toNat c ' ', char_eq_iff_toNat c '\t', char_eq_iff_toNat c '\r',
    char_eq_iff_toNat c '\n']
  have h1 : ' '.toNat = 32 := rfl
  have h2 : '\t'.toNat = 9 := rfl
  have h3 : '\r'.toNat = 13 := rfl
  have h4 : '\n'.toNat = 10 := rfl
  rw [h1, h2, h3, h4]
  tauto

theorem toNat_ofNat_valid (n : ℕ) (h : n.isValidChar) : (Char.ofNat n).toNat = n := by
  rw [Char.ofNat, dif_pos h]
  rfl

theorem toLower_toNat_of_upper {c : Char} (h1 : 65 ≤ c.toNat) (h2 : c.toNat ≤ 90) :
    (c.toLower).toNat = c.toNat + 32 := by
  unfold Char.toLower
  rw [if_pos ⟨h1, h2⟩]
  exact toNat_ofNat_valid _ (Or.inl (by omega))

theorem toLower_eq_self {c : Char} (h : ¬(65 ≤ c.toNat ∧ c.toNat ≤ 90)) : c.toLower = c := by
  unfold Char.toLower
  rw [if_neg h]

theorem isWhitespace_toLower (c : Char) : c.toLower.isWhitespace = c.isWhitespace := by
  by_cases h : 65 ≤ c.toNat ∧ c.toNat ≤ 90
  · have ht := toLower_toNat_of_upper h.1 h.2
    have hws : c.isWhitespace = false := by
      rw [Bool.eq_false_iff]
      intro hw
      rcases (isWhitespace_iff c).mp hw with h' | h' | h' | h' <;> omega
    have hws2 : c.toLower.isWhitespace = false := by
      rw [Bool.eq_false_iff]
      intro hw
      rcases (isWhitespace_iff _).mp hw with h' | h' | h' | h' <;> omega
    rw [hws, hws2]
  · rw [toLower_eq_self h]

theorem toLower_idem (c : Char) : c.toLower.toLower = c.toLower := by
  by_cases h : 65 ≤ c.toNat ∧ c.toNat ≤ 90
  · have ht := toLower_toNat_of_upper h.1 h.2
    apply toLower_eq_self
    omega
  · rw [toLower_eq_self h, toLower_eq_self h]

theorem isWhitespace_comp_toLower :
    (Char.isWhitespace ∘ Char.toLower) = Char.isWhitespace := by
  funext c
  exact isWhitespace_toLower c

theorem pyLower_idem (l : List Char) : pyLower (pyLower l) = pyLower l := by
  simp only [pyLower, List.map_map]
  congr 1
  funext c
  exact toLower_idem c

theorem rdropWhile_ws_pyLower (l : List Char) :
    (l.map Char.toLower).rdropWhile Char.isWhitespace =
      (l.rdropWhile Char.isWhitespace).map Char.toLower := by
  simp only [List.rdropWhile, ← List.map_reverse, List.dropWhile_map,
    isWhitespace_comp_toLower]

theorem pyStrip_pyLower (l : List Char) : pyStrip (pyLower l) = pyLower (pyStrip l) := by
  simp only [pyStrip, pyLower, List.dropWhile_map, isWhitespace_comp_toLower,
    rdropWhile_ws_pyLower]

theorem dropWhile_ws_pyStrip (l : List Char) :
    (pyStrip l).dropWhile Char.isWhitespace = pyStrip l := by
  rw [List.dropWhile_eq_self_iff]
  intro hl
  have hpre : (pyStrip l) <+: (l.dropWhile Char.isWhitespace) :=
    List.rdropWhile_prefix _ _
  have hlen : 0 < (l.dropWhile Char.isWhitespace).length :=
    lt_of_lt_of_le hl hpre.length_le
  have hx := List.dropWhile_get_zero_not Char.isWhitespace l hlen
  rw [List.get_eq_getElem, ← hpre.getElem hl] at hx
  simpa using hx

theorem pyStrip_idem (l : List Char) : pyStrip (pyStrip l) = pyStrip l := by
  show ((pyStrip l).dropWhile Char.isWhitespace).rdropWhile Char.isWhitespace = pyStrip l
  rw [dropWhile_ws_pyStrip]
  exact List.rdropWhile_idempotent _ _

theorem normalize_idem (l : List Char) :
    pyLower (pyStrip (pyLower (pyStrip l))) = pyLower (pyStrip l) := by
  rw [pyStrip_pyLower, pyLower_idem, pyStrip_idem]

theorem foldl_add_eq_sum {α : Type} (f : α → ℚ) (l : List α) (a : ℚ) :
    l.foldl (fun acc x => acc + f x) a = a + (l.map f).sum := by
  induction l generalizing a with
  | nil => simp
  | cons x xs ih => simp [ih, add_assoc]

theorem pyOr_zero (c : ℚ) : pyOr c 0 = c := by
  unfold pyOr
  split <;> simp_all

theorem log_meal_total_eq (store : List StoredMealLog) (payload : LogMealRequest) :
    (log_meal store payload).2.total_calories = amendedMealTotal payload.items := by
  show payload.items.foldl _ 0 = _
  rw [foldl_add_eq_sum (fun item => pyOr item.calories 0 * pyOrOpt item.quantity 1)
    payload.items 0, zero_add]
  unfold amendedMealTotal
  congr 1
  apply List.map_congr_left
  intro i _
  rw [pyOr_zero]
  cases hq : i.quantity with
  | none => simp [pyOrOpt]
  | some v => simp only [pyOrOpt, pyOr]

/-- C1 (counterexample): an item with calories 100 and explicit quantity 0
meets the claim's non-negativity precondition, yet log_meal computes
total_calories 100 while the claimed formula (calories × quantity, absent
quantity = 1) gives 0 — Python's `or` also replaces a zero quantity by 1. -/
theorem C1_counterexample :
    nonnegItems [MealItem.mk "rice" 100 (some 0)]
    ∧ (log_meal [] (LogMealRequest.mk "u" "2024-01-01" [MealItem.mk "rice" 100 (some 0)]
        none)).2.total_calories = 100
    ∧ specMealTotal [MealItem.mk "rice" 100 (some 0)] = 0
    ∧ (100 : ℚ) ≠ 0 := by
  refine ⟨by decide, ?_, ?_, by norm_num⟩
  · show List.foldl _ (0 : ℚ) _ = 100
    norm_num [pyOr, pyOrOpt]
  · norm_num [specMealTotal]

/-- C1 (amended): for items with non-negative calories and quantity,
log_meal returns, and stores in the single created MealLog document, a
total equal to the sum over items of calories times quantity, where a
quantity that is absent OR ZERO counts as 1 and calories are as given;
for an empty items list the total is 0 and a log document is still
created. -/
theorem C1_log_meal_amended (store : List StoredMealLog) (payload : LogMealRequest)
    (h : nonnegItems payload.items) :
    (log_meal store payload).2.total_calories = amendedMealTotal payload.items
    ∧ (log_meal store payload).1 = store ++
        [StoredMealLog.mk payload.user_id payload.date payload.items
          (some (amendedMealTotal payload.items)) payload.notes]
    ∧ (payload.items = [] → (log_meal store payload).2.total_calories = 0) := by
  have htot := log_meal_total_eq store payload
  refine ⟨htot, ?_, ?_⟩
  · show store ++ [_] = _
    rw [← log_meal_total_eq store payload]
    rfl
  · intro he
    rw [htot, he]
    simp [amendedMealTotal]

/-- C1 witness: the amended theorem applied to a concrete two-item meal. -/
theorem C1_witness :
    nonnegItems [MealItem.mk "rice" 100 none, MealItem.mk "egg" 50 (some 2)]
    ∧ ((log_meal [] (LogMealRequest.mk "u" "2024-01-01"
          [MealItem.mk "rice" 100 none, MealItem.mk "egg" 50 (some 2)] none)).2.total_calories
        = amendedMealTotal [MealItem.mk "rice" 100 none, MealItem.mk "egg" 50 (some 2)]
      ∧ (log_meal [] (LogMealRequest.mk "u" "2024-01-01"
          [MealItem.mk "rice" 100 none, MealItem.mk "egg" 50 (some 2)] none)).1 = [] ++
          [StoredMealLog.mk "u" "2024-01-01"
            [MealItem.mk "rice" 100 none, MealItem.mk "egg" 50 (some 2)]
            (some (amendedMealTotal
              [MealItem.mk "rice" 100 none, MealItem.mk "egg" 50 (some 2)])) none]
      ∧ ([MealItem.mk "rice" 100 none, MealItem.mk "egg" 50 (some 2)] =
          ([] : List MealItem) →
          (log_meal [] (LogMealRequest.mk "u" "2024-01-01"
            [MealItem.mk "rice" 100 none, MealItem.mk "egg" 50 (some 2)]
            none)).2.total_calories = 0)) :=
  ⟨by decide,
    C1_log_meal_amended [] (LogMealRequest.mk "u" "2024-01-01"
      [MealItem.mk "rice" 100 none, MealItem.mk "egg" 50 (some 2)] none) (by decide)⟩

theorem pyRound_eq_down {q : ℚ} {n : ℤ} (h1 : (n : ℚ) ≤ q) (h2 : q < (n : ℚ) + 1/2) :
    pyRound q = n := by
  have hf : ⌊q⌋ = n := Int.floor_eq_iff.mpr ⟨h1, by linarith⟩
  unfold pyRound
  rw [hf, if_pos (by linarith)]

theorem pyRound_eq_up {q : ℚ} {n : ℤ} (h2 : q < (n : ℚ)) (h3 : (n : ℚ) - 1/2 < q) :
    pyRound q = n := by
  have hf : ⌊q⌋ = n - 1 := by
    rw [Int.floor_eq_iff]
    push_cast
    constructor <;> linarith
  unfold pyRound
  rw [hf]
  rw [if_neg (by push_cast; linarith), if_pos (by push_cast; linarith)]
  omega

theorem pyRound_1200 : pyRound (1200 : ℚ) = 1200 :=
  pyRound_eq_down (by norm_num) (by norm_num)

/-- C2: for every valid diet-plan input (age in [0,120], male/female sex
after lowercasing, non-negative height and weight, recognized activity
level), diet_plan succeeds and its target_calories equals
round(max(1200, adjust(BMR × factor))) with the Mifflin-St Jeor BMR and
the goal adjustment of the spec; if the goal-adjusted TDEE is below 1200
the target is exactly 1200. -/
theorem C2_target_calories (req : DietRequest) (f : ℚ)
    (ha0 : 0 ≤ req.age) (ha1 : req.age ≤ 120)
    (hh : 0 ≤ req.height_cm) (hw : 0 ≤ req.weight_kg)
    (hsex : pyLowerStr req.sex = "male" ∨ pyLowerStr req.sex = "female")
    (hact : activity_factors req.activity_level = some f) :
    ∃ plan, diet_plan req = .ok plan
      ∧ plan.target_calories = pyRound (specTarget req f)
      ∧ (specGoalAdjust req.goal (specBMR req * f) < 1200 →
          plan.target_calories = 1200) := by
  have hcond : ¬(pyLowerStr req.sex ≠ "male" ∧ pyLowerStr req.sex ≠ "female") := by
    tauto
  unfold diet_plan
  rw [if_neg hcond, hact]
  refine ⟨_, rfl, rfl, ?_⟩
  intro hlt
  show pyRound (max 1200 (specGoalAdjust req.goal (specBMR req * f))) = 1200
  rw [max_eq_left (le_of_lt hlt)]
  exact pyRound_1200

/-- C2 witness: a small female sedentary "lose" request whose adjusted
TDEE is far below 1200, so the clamp fires. -/
theorem C2_witness :
    (0 : ℤ) ≤ 30 ∧ (30 : ℤ) ≤ 120 ∧ (0 : ℚ) ≤ 0
    ∧ (pyLowerStr "female" = "male" ∨ pyLowerStr "female" = "female")
    ∧ activity_factors "sedentary" = some 1.2
    ∧ (∃ plan, diet_plan (DietRequest.mk 30 "female" 0 0 "sedentary" "lose") = .ok plan
        ∧ plan.target_calories =
            pyRound (specTarget (DietRequest.mk 30 "female" 0 0 "sedentary" "lose") 1.2)
        ∧ (specGoalAdjust "lose"
              (specBMR (DietRequest.mk 30 "female" 0 0 "sedentary" "lose") * 1.2) < 1200 →
            plan.target_calories = 1200)) :=
  ⟨by decide, by decide, le_refl 0, by right; decide, rfl,
    C2_target_calories (DietRequest.mk 30 "female" 0 0 "sedentary" "lose") 1.2
      (by decide) (by decide) (le_refl 0) (le_refl 0) (by right; decide) rfl⟩

theorem specTarget_example :
    specTarget (DietRequest.mk 30 "male" 180 80 "moderate" "maintain") 1.55 = 2759 := by
  have hsx : pyLowerStr "male" = "male" := by decide
  unfold specTarget specGoalAdjust specBMR
  rw [if_neg (by decide), if_neg (by decide), hsx, if_pos rfl]
  rw [max_eq_right (by norm_num)]
  norm_num

theorem diet_plan_example_eq :
    diet_plan (DietRequest.mk 30 "male" 180 80 "moderate" "maintain") =
      .ok (DietPlan.mk 2759 207 276 92 dietTips) := by
  have hok : diet_plan (DietRequest.mk 30 "male" 180 80 "moderate" "maintain") =
      .ok (DietPlan.mk
        (pyRound (specTarget (DietRequest.mk 30 "male" 180 80 "moderate" "maintain") 1.55))
        (pyRound (0.30 * specTarget (DietRequest.mk 30 "male" 180 80 "moderate" "maintain")
          1.55 / 4))
        (pyRound (0.40 * specTarget (DietRequest.mk 30 "male" 180 80 "moderate" "maintain")
          1.55 / 4))
        (pyRound (0.30 * specTarget (DietRequest.mk 30 "male" 180 80 "moderate" "maintain")
          1.55 / 9))
        dietTips) := by
    unfold diet_plan
    rw [if_neg (by decide)]
    rfl
  rw [hok, specTarget_example]
  rw [pyRound_eq_down (n := 2759) (by norm_num) (by norm_num),
    pyRound_eq_up (n := 207) (by norm_num) (by norm_num),
    pyRound_eq_up (n := 276) (by norm_num) (by norm_num),
    pyRound_eq_up (n := 92) (by norm_num) (by norm_num)]

/-- C3 (counterexample): on the spec's worked example (age 30, male,
180 cm, 80 kg, moderate, maintain) the code returns target_calories 2759,
not the claimed 2933 — the Mifflin-St Jeor value for these inputs is
10·80 + 6.25·180 − 5·30 + 5 = 1780, not the 1892.5 used by the spec. -/
theorem C3_counterexample :
    (diet_plan (DietRequest.mk 30 "male" 180 80 "moderate" "maintain")).toOption.map
        (fun p => (p.target_calories, p.protein_g, p.carbs_g, p.fat_g))
      = some (2759, 207, 276, 92)
    ∧ (2759 : ℤ) ≠ 2933 := by
  rw [diet_plan_example_eq]
  exact ⟨rfl, by decide⟩

/-- C3 (amended): for every valid diet-plan input the macro grams are
computed from the unrounded, clamped target at the fixed 30/40/30 ratios
(protein ÷4, carbs ÷4, fat ÷9, each rounded); the worked example
(30, male, 180 cm, 80 kg, moderate, maintain) yields target_calories
2759, protein_g 207, carbs_g 276, fat_g 92. -/
theorem C3_macros_amended :
    (∀ (req : DietRequest) (f : ℚ), 0 ≤ req.age → req.age ≤ 120 →
      0 ≤ req.height_cm → 0 ≤ req.weight_kg →
      (pyLowerStr req.sex = "male" ∨ pyLowerStr req.sex = "female") →
      activity_factors req.activity_level = some f →
      ∃ plan, diet_plan req = .ok plan
        ∧ plan.protein_g = pyRound (0.30 * specTarget req f / 4)
        ∧ plan.carbs_g = pyRound (0.40 * specTarget req f / 4)
        ∧ plan.fat_g = pyRound (0.30 * specTarget req f / 9))
    ∧ diet_plan (DietRequest.mk 30 "male" 180 80 "moderate" "maintain") =
        .ok (DietPlan.mk 2759 207 276 92 dietTips) := by
  have main : ∀ (req : DietRequest) (f : ℚ), 0 ≤ req.age → req.age ≤ 120 →
      0 ≤ req.height_cm → 0 ≤ req.weight_kg →
      (pyLowerStr req.sex = "male" ∨ pyLowerStr req.sex = "female") →
      activity_factors req.activity_level = some f →
      ∃ plan, diet_plan req = .ok plan
        ∧ plan.protein_g = pyRound (0.30 * specTarget req f / 4)
        ∧ plan.carbs_g = pyRound (0.40 * specTarget req f / 4)
        ∧ plan.fat_g = pyRound (0.30 * specTarget req f / 9) := by
    intro req f _ _ _ _ hsex hact
    have hcond : ¬(pyLowerStr req.sex ≠ "male" ∧ pyLowerStr req.sex ≠ "female") := by
      tauto
    unfold diet_plan
    rw [if_neg hcond, hact]
    exact ⟨_, rfl, rfl, rfl, rfl⟩
  exact ⟨main, diet_plan_example_eq⟩

/-- C3 witness: the amended macro formulas applied at the worked example. -/
theorem C3_witness :
    (0 : ℤ) ≤ 30 ∧ (30 : ℤ) ≤ 120 ∧ (0 : ℚ) ≤ 180 ∧ (0 : ℚ) ≤ 80
    ∧ (pyLowerStr "male" = "male" ∨ pyLowerStr "male" = "female")
    ∧ activity_factors "moderate" = some 1.55
    ∧ (∃ plan, diet_plan (DietRequest.mk 30 "male" 180 80 "moderate" "maintain") = .ok plan
        ∧ plan.protein_g = pyRound (0.30 *
            specTarget (DietRequest.mk 30 "male" 180 80 "moderate" "maintain") 1.55 / 4)
        ∧ plan.carbs_g = pyRound (0.40 *
            specTarget (DietRequest.mk 30 "male" 180 80 "moderate" "maintain") 1.55 / 4)
        ∧ plan.fat_g = pyRound (0.30 *
            specTarget (DietRequest.mk 30 "male" 180 80 "moderate" "maintain") 1.55 / 9)) :=
  ⟨by decide, by decide, by norm_num, by norm_num, by left; decide, rfl,
    C3_macros_amended.1 (DietRequest.mk 30 "male" 180 80 "moderate" "maintain") 1.55
      (by decide) (by decide) (by norm_num) (by norm_num) (by left; decide) rfl⟩

theorem activity_factors_eq_none_iff (s : String) :
    activity_factors s = none ↔ s ∉ activityLevels := by
  unfold activity_factors activityLevels
  split_ifs with h1 h2 h3 h4 h5 <;> simp_all

/-- C4: diet_plan fails with a 400 client error exactly when the
lowercased sex is neither "male" nor "female" or the activity level is
not one of the five recognized ones; any goal other than "lose"/"gain"
behaves exactly like "maintain" and raises no error. -/
theorem C4_validation (req : DietRequest) (g : String) :
    ((∃ e, diet_plan req = .error e ∧ e.status = 400) ↔
      (¬(pyLowerStr req.sex = "male" ∨ pyLowerStr req.sex = "female")
        ∨ req.activity_level ∉ activityLevels))
    ∧ (g ≠ "lose" → g ≠ "gain" →
        diet_plan { req with goal := g } = diet_plan { req with goal := "maintain" }) := by
  constructor
  · unfold diet_plan
    by_cases hs : pyLowerStr req.sex ≠ "male" ∧ pyLowerStr req.sex ≠ "female"
    · rw [if_pos hs]
      constructor
      · intro _
        left
        tauto
      · intro _
        exact ⟨_, rfl, rfl⟩
    · rw [if_neg hs]
      cases hact : activity_factors req.activity_level with
      | none =>
        dsimp only
        constructor
        · intro _
          right
          exact (activity_factors_eq_none_iff req.activity_level).mp hact
        · intro _
          exact ⟨_, rfl, rfl⟩
      | some f =>
        dsimp only
        constructor
        · rintro ⟨e, he, _⟩
          exact absurd he (by simp)
        · intro hbad
          exfalso
          rcases hbad with hbad | hbad
          · exact hs ⟨fun h => hbad (Or.inl h), fun h => hbad (Or.inr h)⟩
          · have hnone := (activity_factors_eq_none_iff req.activity_level).mpr hbad
            rw [hact] at hnone
            exact absurd hnone (by simp)
  · intro hg1 hg2
    unfold diet_plan
    by_cases hs : pyLowerStr req.sex ≠ "male" ∧ pyLowerStr req.sex ≠ "female"
    · rw [if_pos hs, if_pos hs]
    · rw [if_neg hs, if_neg hs]
      cases hact : activity_factors req.activity_level with
      | none => rfl
      | some f =>
        dsimp only
        rw [if_neg hg1, if_neg hg2,
          if_neg (show ¬("maintain" : String) = "lose" by decide),
          if_neg (show ¬("maintain" : String) = "gain" by decide)]

/-- C4 witness: sex "other" with activity "extreme" is rejected with a
400 error, and goal "bulk" computes the same plan as "maintain". -/
theorem C4_witness :
    ((∃ e, diet_plan (DietRequest.mk 30 "other" 180 80 "extreme" "maintain") = .error e
        ∧ e.status = 400) ↔
      (¬(pyLowerStr "other" = "male" ∨ pyLowerStr "other" = "female")
        ∨ ("extreme" : String) ∉ activityLevels))
    ∧ ("bulk" : String) ≠ "lose" ∧ ("bulk" : String) ≠ "gain"
    ∧ diet_plan { DietRequest.mk 30 "other" 180 80 "extreme" "maintain" with goal := "bulk" }
        = diet_plan { DietRequest.mk 30 "other" 180 80 "extreme" "maintain" with
            goal := "maintain" } :=
  ⟨(C4_validation (DietRequest.mk 30 "other" 180 80 "extreme" "maintain") "bulk").1,
    by decide, by decide,
    (C4_validation (DietRequest.mk 30 "other" 180 80 "extreme" "maintain") "bulk").2
      (by decide) (by decide)⟩

/-- C5: exercise_form is invariant under lowercasing and trimming of its
input — looking up any string gives the same result as looking up its
trimmed, lowercased form; in particular "SQUAT", " squat " and "squat"
all resolve to the same catalog entry. -/
theorem C5_normalization_invariance :
    (∀ s : String, exercise_form s = exercise_form (String.mk (pyLower (pyStrip s.toList))))
    ∧ exercise_form "SQUAT" = exercise_form "squat"
    ∧ exercise_form " squat " = exercise_form "squat" := by
  refine ⟨?_, by decide, by decide⟩
  intro s
  have hkey : pyLower (pyStrip (String.toList (String.mk (pyLower (pyStrip s.toList)))))
      = pyLower (pyStrip s.toList) := by
    show pyLower (pyStrip (pyLower (pyStrip s.toList))) = _
    exact normalize_idem _
  unfold exercise_form
  rw [hkey]

/-- C6: exercise_form fails, with the 404 error whose detail names all
three supported exercises, exactly when the normalized name is not a
catalog key; on a hit it returns the normalized (canonical) name with
that entry's cue and mistake lists. -/
theorem C6_not_found (s : String) :
    (exercise_form s = .error (HTTPError.mk 404 formNotFoundDetail) ↔
        pyLower (pyStrip s.toList) ∉ form_library.map Prod.fst)
    ∧ ("squat".toList <:+: formNotFoundDetail.toList
        ∧ "push-up".toList <:+: formNotFoundDetail.toList
        ∧ "deadlift".toList <:+: formNotFoundDetail.toList)
    ∧ (∀ entry, (pyLower (pyStrip s.toList), entry) ∈ form_library →
        exercise_form s = .ok (FormGuideResponse.mk
          (String.mk (pyLower (pyStrip s.toList))) entry.cues entry.mistakes)) := by
  refine ⟨?_, ⟨?_, ?_, ?_⟩, ?_⟩
  · constructor
    · intro heq
      intro hk
      obtain ⟨p, hmem, hp⟩ := List.mem_map.mp hk
      have hsome : (form_library.find? (fun q => q.1 = pyLower (pyStrip s.toList))).isSome := by
        rw [List.find?_isSome]
        exact ⟨p, hmem, by simpa using hp⟩
      obtain ⟨q, hq⟩ := Option.isSome_iff_exists.mp hsome
      unfold exercise_form at heq
      dsimp only at heq
      rw [hq] at heq
      simp at heq
    · intro hnot
      have hfound : form_library.find? (fun q => q.1 = pyLower (pyStrip s.toList)) = none := by
        rw [List.find?_eq_none]
        intro p hmem
        simp only [decide_eq_true_eq]
        intro hp
        exact hnot (List.mem_map.mpr ⟨p, hmem, hp⟩)
      unfold exercise_form
      dsimp only
      rw [hfound]
      rfl
  · exact ⟨"Exercise not found. Try ".toList, ", push-up, or deadlift".toList, by decide⟩
  · exact ⟨"Exercise not found. Try squat, ".toList, ", or deadlift".toList, by decide⟩
  · exact ⟨"Exercise not found. Try squat, push-up, or ".toList, [], by decide⟩
  · intro entry hmem
    simp only [form_library, List.mem_cons, List.mem_singleton, List.not_mem_nil,
      or_false] at hmem
    rcases hmem with h | h | h <;>
      (rw [Prod.mk.injEq] at h; obtain ⟨h1, h2⟩ := h) <;>
      (unfold exercise_form; rw [h1, h2]; decide)

/-- C6 witness: "yoga" is rejected with the 404 error, and "deadlift"
resolves to its catalog entry. -/
theorem C6_witness :
    exercise_form "yoga" = .error (HTTPError.mk 404 formNotFoundDetail)
    ∧ (pyLower (pyStrip "deadlift".toList),
        FormEntry.mk
          [ "Bar over mid-foot", "Hinge at hips, flat back", "Lats tight, bar close",
            "Push the floor, stand tall" ]
          [ "Rounding lower back", "Jerking the bar", "Bar drifting forward" ])
        ∈ form_library
    ∧ exercise_form "deadlift" = .ok (FormGuideResponse.mk
        (String.mk (pyLower (pyStrip "deadlift".toList)))
        (FormEntry.mk
          [ "Bar over mid-foot", "Hinge at hips, flat back", "Lats tight, bar close",
            "Push the floor, stand tall" ]
          [ "Rounding lower back", "Jerking the bar", "Bar drifting forward" ]).cues
        (FormEntry.mk
          [ "Bar over mid-foot", "Hinge at hips, flat back", "Lats tight, bar close",
            "Push the floor, stand tall" ]
          [ "Rounding lower back", "Jerking the bar", "Bar drifting forward" ]).mistakes) :=
  ⟨((C6_not_found "yoga").1).mpr (by decide), by decide,
    (C6_not_found "deadlift").2.2
      (FormEntry.mk
        [ "Bar over mid-foot", "Hinge at hips, flat back", "Lats tight, bar close",
          "Push the floor, stand tall" ]
        [ "Rounding lower back", "Jerking the bar", "Bar drifting forward" ])
      (by decide)⟩

theorem daily_summary_eq (store : List StoredMealLog) (u dt : String) :
    daily_summary store u dt = DaySummary.mk dt
      (((get_documents store u dt).map (fun d => d.total_calories.getD 0)).sum) := by
  unfold daily_summary
  dsimp only
  rw [foldl_add_eq_sum (fun d => d.total_calories.getD 0) (get_documents store u dt) 0,
    zero_add]

/-- C7: daily_summary returns the sum of the stored total_calories fields
of exactly the documents matching {user_id, date}; it returns 0 (not an
error) when nothing matches, and it never recomputes from the items lists
(erasing every document's items leaves the summary unchanged). -/
theorem C7_daily_summary (store : List StoredMealLog) (u dt : String) :
    (daily_summary store u dt).total_calories =
      ((get_documents store u dt).map (fun d => d.total_calories.getD 0)).sum
    ∧ (get_documents store u dt = [] → (daily_summary store u dt).total_calories = 0)
    ∧ daily_summary (store.map (fun d => StoredMealLog.mk d.user_id d.date []
        d.total_calories d.notes)) u dt = daily_summary store u dt := by
  refine ⟨by rw [daily_summary_eq], ?_, ?_⟩
  · intro he
    rw [daily_summary_eq, he]
    rfl
  · rw [daily_summary_eq, daily_summary_eq]
    unfold get_documents
    rw [List.filter_map, List.map_map]
    rfl

/-- C7 witness: a concrete store where two documents match, one does not,
and a date with no matches sums to 0. -/
theorem C7_witness :
    (daily_summary
        [ StoredMealLog.mk "u" "d" [] (some 10) none,
          StoredMealLog.mk "u" "d" [MealItem.mk "x" 3 none] (some 5) none,
          StoredMealLog.mk "v" "d" [] (some 7) none ] "u" "d").total_calories =
      ((get_documents
        [ StoredMealLog.mk "u" "d" [] (some 10) none,
          StoredMealLog.mk "u" "d" [MealItem.mk "x" 3 none] (some 5) none,
          StoredMealLog.mk "v" "d" [] (some 7) none ] "u" "d").map
        (fun d => d.total_calories.getD 0)).sum
    ∧ get_documents [StoredMealLog.mk "u" "d" [] (some 10) none] "u" "e" = []
    ∧ (daily_summary [StoredMealLog.mk "u" "d" [] (some 10) none] "u" "e").total_calories
        = 0 :=
  ⟨(C7_daily_summary
      [ StoredMealLog.mk "u" "d" [] (some 10) none,
        StoredMealLog.mk "u" "d" [MealItem.mk "x" 3 none] (some 5) none,
        StoredMealLog.mk "v" "d" [] (some 7) none ] "u" "d").1,
    by decide,
    (C7_daily_summary [StoredMealLog.mk "u" "d" [] (some 10) none] "u" "e").2.1
      (by decide)⟩

/-- C10: a matching stored document without a total_calories field
contributes 0 — inserting such a document anywhere leaves the daily
summary unchanged, and no error occurs. -/
theorem C10_missing_total (pre post : List StoredMealLog) (u dt : String)
    (d : StoredMealLog) (hmiss : d.total_calories = none) :
    daily_summary (pre ++ d :: post) u dt = daily_summary (pre ++ post) u dt := by
  rw [daily_summary_eq, daily_summary_eq]
  unfold get_documents
  rw [List.filter_append, List.filter_append, List.filter_cons]
  by_cases hm : d.user_id = u ∧ d.date = dt
  · rw [if_pos (by simpa using hm)]
    simp [hmiss]
  · rw [if_neg (by simpa using hm)]

/-- C10 witness: a document with total_calories absent, matching the
queried user and date, does not change the total. -/
theorem C10_witness :
    (StoredMealLog.mk "u" "d" [MealItem.mk "x" 3 none] none none).total_calories = none
    ∧ daily_summary
        ([StoredMealLog.mk "u" "d" [] (some 10) none] ++
          StoredMealLog.mk "u" "d" [MealItem.mk "x" 3 none] none none ::
            [StoredMealLog.mk "u" "d" [] (some 5) none]) "u" "d" =
      daily_summary
        ([StoredMealLog.mk "u" "d" [] (some 10) none] ++
          [StoredMealLog.mk "u" "d" [] (some 5) none]) "u" "d" :=
  ⟨rfl,
    C10_missing_total [StoredMealLog.mk "u" "d" [] (some 10) none]
      [StoredMealLog.mk "u" "d" [] (some 5) none] "u" "d"
      (StoredMealLog.mk "u" "d" [MealItem.mk "x" 3 none] none none) rfl⟩

/-- C8: diet_plan is pure — the handler passes the store state through
unchanged, and the tips of every successful plan are the identical fixed
list of three static strings, independent of the input. -/
theorem C8_diet_plan_pure (store : List StoredMealLog) (req : DietRequest) :
    (dietPlanHandler store req).1 = store
    ∧ (∀ plan, (dietPlanHandler store req).2 = .ok plan → plan.tips = dietTips)
    ∧ dietTips.length = 3 := by
  refine ⟨rfl, ?_, rfl⟩
  intro plan h
  unfold dietPlanHandler at h
  dsimp only at h
  unfold diet_plan at h
  by_cases hs : ¬pyLowerStr req.sex = "male" ∧ ¬pyLowerStr req.sex = "female"
  · rw [if_pos hs] at h
    simp at h
  · rw [if_neg hs] at h
    cases hact : activity_factors req.activity_level with
    | none =>
      rw [hact] at h
      simp at h
    | some f =>
      rw [hact] at h
      dsimp only at h
      injection h with h2
      rw [← h2]

/-- C8 witness: the handler at a concrete store and request. -/
theorem C8_witness :
    (dietPlanHandler [] (DietRequest.mk 30 "male" 180 80 "moderate" "maintain")).1 = []
    ∧ (DietPlan.mk 2759 207 276 92 dietTips).tips = dietTips
    ∧ dietTips.length = 3 :=
  ⟨(C8_diet_plan_pure [] (DietRequest.mk 30 "male" 180 80 "moderate" "maintain")).1,
    (C8_diet_plan_pure [] (DietRequest.mk 30 "male" 180 80 "moderate" "maintain")).2.1
      (DietPlan.mk 2759 207 276 92 dietTips) diet_plan_example_eq,
    (C8_diet_plan_pure [] (DietRequest.mk 30 "male" 180 80 "moderate" "maintain")).2.2⟩

/-- C9: the /test handler produces a response for every probe outcome
(nothing propagates), reports at most 10 collection names, and on a
listing error reports the error text truncated to at most 50
characters. -/
theorem C9_diagnostics (urlSet nameSet : Bool) (probe : ProbeOutcome) (e : List Char) :
    (test_database urlSet nameSet probe).collections.length ≤ 10
    ∧ (probe = .listingError e →
        (test_database urlSet nameSet probe).database =
            "⚠️  Connected but Error: ".toList ++ e.take 50
          ∧ (e.take 50).length ≤ 50)
    ∧ (test_database urlSet nameSet probe).backend = "✅ Running" := by
  refine ⟨?_, ?_, ?_⟩
  · cases probe with
    | unavailable => simp [test_database]
    | listingError e2 => simp [test_database]
    | collections cols =>
      simp only [test_database, List.length_take]
      exact min_le_left _ _
  · intro hp
    subst hp
    refine ⟨rfl, ?_⟩
    rw [List.length_take]
    exact min_le_left _ _
  · cases probe <;> rfl

/-- C9 witness: an 80-character error message is reported truncated to
50 characters. -/
theorem C9_witness :
    (test_database true false (.listingError (List.replicate 80 'x'))).collections.length ≤ 10
    ∧ ((test_database true false
          (.listingError (List.replicate 80 'x'))).database =
          "⚠️  Connected but Error: ".toList ++ (List.replicate 80 'x').take 50
        ∧ ((List.replicate 80 'x').take 50).length ≤ 50)
    ∧ (test_database true false (.listingError (List.replicate 80 'x'))).backend =
        "✅ Running" :=
  ⟨(C9_diagnostics true false (.listingError (List.replicate 80 'x'))
      (List.replicate 80 'x')).1,
    (C9_diagnostics true false (.listingError (List.replicate 80 'x'))
      (List.replicate 80 'x')).2.1 rfl,
    (C9_diagnostics true false (.listingError (List.replicate 80 'x'))
      (List.replicate 80 'x')).2.2⟩

end FitnessCoach
